import Mathlib

/-!
Verification of the AlphaRadar diagnostic scripts
`src/tools/generate_session.py` and `src/tools/test_telegram.py`.

The two Python scripts are straight-line procedures that read environment
variables, construct a Pyrogram client, call library methods and print to
standard output.  We embed each script as a function from its inputs (the
environment, console inputs, the data the library would return, and an
injected fault describing where a KeyboardInterrupt or an exception strikes)
to the trace of effects it performs together with its exit status.
-/

set_option maxRecDepth 4000

namespace AlphaRadar

/-- An environment: maps a variable name to its value, `Option.none` when unset
(mirrors `os.getenv`). -/
def EnvMap : Type := String → Option String

/-- `os.getenv(name, default)`: the value when set, otherwise the default. -/
def osGetenvD (env : EnvMap) (name dflt : String) : String :=
  (env name).getD dflt

/-- The empty environment: every variable unset. -/
def emptyEnv : EnvMap := fun _ => Option.none

/-- Python whitespace characters stripped by `int()` before parsing. -/
def isPySpace (c : Char) : Bool :=
  c = ' ' || c = '\t' || c = '\n' || c = '\r' || c = '\x0b' || c = '\x0c'

/-- Strip leading and trailing whitespace from a character list. -/
def trimWs (cs : List Char) : List Char :=
  ((cs.dropWhile isPySpace).reverse.dropWhile isPySpace).reverse

/-- Digit runs accepted by Python `int()` after the optional sign: one or more
decimal digits with single underscores allowed between digits. -/
def pyDigits : List Char → Bool
  | [] => false
  | [c] => c.isDigit
  | c :: '_' :: rest => c.isDigit && pyDigits rest
  | c :: rest => c.isDigit && pyDigits rest

/-- Numeric value of a digit run (underscores ignored). -/
def digitsVal (cs : List Char) : Int :=
  (cs.filter (fun c => c ≠ '_')).foldl (fun n c => n * 10 + (Int.ofNat c.toNat - 48)) 0

/-- Python `int(s)` on a string: strip whitespace, optional sign, digits;
`Option.none` when the string is not a valid integer literal
(a `ValueError` in Python). -/
def pyIntParse (s : String) : Option Int :=
  match trimWs s.toList with
  | '+' :: rest => if pyDigits rest then some (digitsVal rest) else Option.none
  | '-' :: rest => if pyDigits rest then some (-(digitsVal rest)) else Option.none
  | cs => if pyDigits cs then some (digitsVal cs) else Option.none

/-- The message of the `ValueError` raised by Python `int()` on a bad literal. -/
def pyIntErrorMsg (s : String) : String :=
  "invalid literal for int() with base 10: \x27" ++ s ++ "\x27"

/-- Python rendering of an optional string under an f-string
(`None` when absent). -/
def pyStrOpt : Option String → String
  | some s => s
  | Option.none => "None"

/-- One observable effect performed by a script statement. -/
inductive Eff where
  | printOut (s : String)
  | readEnv (name : String)
  | promptIn (question : String)
  | clientConstructGS (apiId : Int) (apiHash : String)
      (proxyScheme proxyHost : String) (proxyPort : Int)
  | clientConstructTT (apiId apiHash sessionString : Option String)
      (proxyScheme proxyHost : String) (proxyPort : Int)
  | connect
  | sendCode (phone : String)
  | signIn (phone code : String)
  | exportSession
  | disconnect
  | startClient
  | getMe
  | getDialogs
  | registerHandler (chatIds : List Int)
  | sleepLoop
  | stopClient
  | fileWrite (path data : String)
  | machineOutput (s : String)
deriving DecidableEq, Repr

/-- Does this effect construct a Pyrogram client (assign `app`)? -/
def isClientConstruct : Eff → Bool
  | .clientConstructGS _ _ _ _ _ => true
  | .clientConstructTT _ _ _ _ _ _ => true
  | _ => false

/-- Is this effect the `app.connect()` call? -/
def isConnect : Eff → Bool
  | .connect => true
  | _ => false

/-- Is this effect the `app.start()` call? -/
def isStartClient : Eff → Bool
  | .startClient => true
  | _ => false

/-- Effects that would write a file or emit machine-readable output; the
scripts never perform either. -/
def isForbiddenOutput : Eff → Bool
  | .fileWrite _ _ => true
  | .machineOutput _ => true
  | _ => false

/-- One statement of a script body: an effect, an intrinsically raised
exception (such as the `ValueError` of `int()`), a `return`, or the
`while True: await asyncio.sleep(1)` loop. -/
inductive Action where
  | eff (e : Eff)
  | raiseErr (msg : String)
  | ret
  | loop
deriving DecidableEq, Repr

/-- The effect of an action, when it is one. -/
def actEff : Action → Option Eff
  | .eff e => some e
  | _ => Option.none

/-- Externally injected fault: nothing, a KeyboardInterrupt delivered just
before the k-th statement, or an exception raised by the k-th statement. -/
inductive Fault where
  | noFault
  | interruptAt (k : Nat)
  | errorAt (k : Nat) (msg : String)
deriving DecidableEq, Repr

/-- How the try-body of a script ended. -/
inductive BodyResult where
  | completed
  | returned
  | interrupted
  | raisedErr (msg : String)
  | diverged
deriving DecidableEq, Repr

/-- Does the fault strike at statement index k? -/
def faultHits : Fault → Nat → Bool
  | .noFault, _ => false
  | .interruptAt j, k => j == k
  | .errorAt j _, k => j == k

/-- The body result produced by a striking fault. -/
def faultResult : Fault → BodyResult
  | .noFault => .completed
  | .interruptAt _ => .interrupted
  | .errorAt _ _ => .raisedErr ""

/-- Run the statements of a try-body in order, starting at statement index k,
under an injected fault; yields the effect trace and how the body ended.
The `loop` statement iterates forever unless a fault strikes during it. -/
def runActs : List Action → Nat → Fault → List Eff × BodyResult
  | [], _, _ => ([], .completed)
  | a :: rest, k, fault =>
    if faultHits fault k then
      ([], match fault with
           | .noFault => .completed
           | .interruptAt _ => .interrupted
           | .errorAt _ m => .raisedErr m)
    else
      match a with
      | .eff e =>
        let r := runActs rest (k + 1) fault
        (e :: r.1, r.2)
      | .raiseErr m => ([], .raisedErr m)
      | .ret => ([], .returned)
      | .loop =>
        match fault with
        | .interruptAt j => if k ≤ j then ([.sleepLoop], .interrupted) else ([.sleepLoop], .diverged)
        | .errorAt j m => if k ≤ j then ([.sleepLoop], .raisedErr m) else ([.sleepLoop], .diverged)
        | .noFault => ([.sleepLoop], .diverged)

/-- How the whole process ended. -/
inductive ExitStatus where
  | normal
  | exitCode (n : Nat)
  | unhandled (exc : String)
  | diverges
deriving DecidableEq, Repr

/-! ### Embedding of `src/tools/generate_session.py` -/

/-- `proxy_host = os.getenv("PROXY_HOST", "127.0.0.1")`. -/
def gsProxyHost (env : EnvMap) : String := osGetenvD env "PROXY_HOST" "127.0.0.1"

/-- The string fed to `int()` in `proxy_port = int(os.getenv("PROXY_PORT", "10808"))`. -/
def gsProxyPortStr (env : EnvMap) : String := osGetenvD env "PROXY_PORT" "10808"

/-- `proxy_protocol = os.getenv("PROXY_PROTOCOL", "socks5")`. -/
def gsProxyProtocol (env : EnvMap) : String := osGetenvD env "PROXY_PROTOCOL" "socks5"

/-- The phone-number console question of `generate_session.py`. -/
def gsPhoneQuestion : String :=
  "📱 Please enter your phone number (with country code, e.g., +1234567890): "

/-- The verification-code console question of `generate_session.py`. -/
def gsCodeQuestion : String :=
  "🔑 Please enter the verification code you received: "

/-- The try-body of `generate_session()` as a statement list: prints, the
environment reads (with the `int()` conversion of the proxy port, which
raises on a bad literal), the phone prompt, the `Client(...)` construction
with the literal `api_id`/`api_hash`, the login calls, the session-string
prints, and the final `app.disconnect()`.  `phone` and `code` are the console
inputs; `sess` is the string `app.export_session_string()` returns. -/
def gsTryBody (env : EnvMap) (phone code sess : String) : List Action :=
  [.eff (.printOut "🚀 Starting session generation..."),
   .eff (.readEnv "PROXY_HOST")] ++
  match pyIntParse (gsProxyPortStr env) with
  | Option.none =>
    [.eff (.readEnv "PROXY_PORT"),
     .raiseErr (pyIntErrorMsg (gsProxyPortStr env))]
  | some port =>
    [.eff (.readEnv "PROXY_PORT"),
     .eff (.readEnv "PROXY_PROTOCOL"),
     .eff (.promptIn gsPhoneQuestion),
     .eff (.clientConstructGS 27321288 "5c3202e68b0b9d356e7fc7daaec65e90"
            (gsProxyProtocol env) (gsProxyHost env) port),
     .eff (.printOut "🔌 Connecting to Telegram..."),
     .eff .connect,
     .eff (.printOut "📤 Sending code request..."),
     .eff (.sendCode phone),
     .eff (.promptIn gsCodeQuestion),
     .eff (.printOut "🔐 Signing in..."),
     .eff (.signIn phone code),
     .eff .exportSession,
     .eff (.printOut "\n✅ Session string generated successfully!"),
     .eff (.printOut "\n📋 Your session string:"),
     .eff (.printOut sess),
     .eff (.printOut "\n💡 Add this to your .env file as TELEGRAM_SESSION_STRING"),
     .eff .disconnect]

/-- `generate_session()`: run the try-body; `except Exception` prints the
error and calls `sys.exit(1)`; a KeyboardInterrupt is not caught (it is not
an `Exception`) and terminates the process unhandled. -/
def generate_session (env : EnvMap) (phone code sess : String) (fault : Fault) :
    List Eff × ExitStatus :=
  let r := runActs (gsTryBody env phone code sess) 0 fault
  match r.2 with
  | .completed => (r.1, .normal)
  | .returned => (r.1, .normal)
  | .interrupted => (r.1, .unhandled "KeyboardInterrupt")
  | .raisedErr m =>
    (r.1 ++ [.printOut ("❌ Error generating session: " ++ m)], .exitCode 1)
  | .diverged => (r.1, .diverges)

/-! ### Embedding of `src/tools/test_telegram.py` -/

/-- A dialog's chat object: the fields the script touches. -/
structure Chat where
  title : String
  username : Option String
  id : Int
deriving DecidableEq, Repr

/-- The hardcoded `GMGN_GROUPS` table mapping group display names to
usernames. -/
def GMGN_GROUPS : List (String × String) :=
  [("GMGN Featured Signals(Lv2) - SOL", "gmgnsignals"),
   ("GMGN Featured Signals(Lv2) - ETH", "gmgnsignalseth"),
   ("GMGN Featured Signals(Lv2) - BTC", "gmgnsignalsbtc"),
   ("GMGN Featured Signals(Lv2) - BNB", "gmgnsignalsbnb"),
   ("GMGN Featured Signals(Lv2) - AVAX", "gmgnsignalsavax"),
   ("GMGN Featured Signals(Lv2) - MATIC", "gmgnsignalsmatic"),
   ("GMGN Featured Signals(Lv2) - ARB", "gmgnsignalsarb"),
   ("GMGN Featured Signals(Lv2) - OP", "gmgnsignalsop"),
   ("GMGN Featured Signals(Lv2) - BASE", "gmgnsignalsbase"),
   ("GMGN Featured Signals(Lv2) - INJ", "gmgnsignalsinj"),
   ("GMGN Featured Signals(Lv2) - TIA", "gmgnsignalstia"),
   ("GMGN Featured Signals(Lv2) - SEI", "gmgnsignalssei"),
   ("GMGN Featured Signals(Lv2) - SUI", "gmgnsignalssui"),
   ("GMGN Featured Signals(Lv2) - APT", "gmgnsignalsapt"),
   ("GMGN Featured Signals(Lv2) - NEAR", "gmgnsignalsnear"),
   ("GMGN Featured Signals(Lv2) - ATOM", "gmgnsignalsatom"),
   ("GMGN Featured Signals(Lv2) - OSMO", "gmgnsignalsosmo")]

/-- `GMGN_GROUPS.values()`: the usernames of the table. -/
def gmgnUsernames : List String := GMGN_GROUPS.map Prod.snd

/-- `chat.username in GMGN_GROUPS.values()` (a `None` username is in no
string list). -/
def matchesGmgn (c : Chat) : Bool :=
  match c.username with
  | some u => gmgnUsernames.contains u
  | Option.none => false

/-- `d[k] = v` on a Python dict kept as an insertion-ordered association
list: overwrite in place when the key exists, append otherwise. -/
def dictInsert (d : List (String × Int)) (k : String) (v : Int) :
    List (String × Int) :=
  if d.any (fun p => p.1 == k) then
    d.map (fun p => if p.1 == k then (k, v) else p)
  else
    d ++ [(k, v)]

/-- The `group_ids` dict after the dialog loop: for each dialog whose chat
username is in the table, `group_ids[chat.title] = chat.id`. -/
def ttGroupDict (dialogs : List Chat) : List (String × Int) :=
  dialogs.foldl (fun d c => if matchesGmgn c then dictInsert d c.title c.id else d) []

/-- `list(group_ids.values())`: the chat ids the message filter is built on. -/
def ttGroupIds (dialogs : List Chat) : List Int :=
  (ttGroupDict dialogs).map Prod.snd

/-- The `- {title} (ID: {id})` line printed for one matching dialog. -/
def ttDialogLine (c : Chat) : String :=
  "- " ++ c.title ++ " (ID: " ++ toString c.id ++ ")"

/-- The print effects emitted by the dialog loop, one per matching dialog. -/
def ttDialogPrints (dialogs : List Chat) : List Eff :=
  dialogs.foldr
    (fun c acc => (if matchesGmgn c then [Eff.printOut (ttDialogLine c)] else []) ++ acc)
    []

/-- The not-found message printed when no GMGN group is among the dialogs. -/
def ttNotFoundMsg : String :=
  "❌ No GMGN signal groups found. Please make sure you\x27re a member of these groups."

/-- The farewell printed by the `except KeyboardInterrupt` handler. -/
def ttFarewellMsg : String := "\n👋 Stopping the script..."

/-- The try-body of `test_telegram()` as a statement list: the start print,
the environment reads with the `int()` conversion of the proxy port, the
`Client(...)` construction whose `api_id`/`api_hash`/`session_string` come
from `os.getenv` with no default, `app.start()`, `get_me` and its print, the
dialog enumeration, then either the not-found early return or the handler
registration followed by the listening print and the sleep loop.
`meFirst`/`meUser` are the fields of the user `get_me` returns; `dialogs`
are the chats `get_dialogs` yields. -/
def ttTryBody (env : EnvMap) (meFirst meUser : String) (dialogs : List Chat) :
    List Action :=
  [.eff (.printOut "🚀 Starting Telegram test..."),
   .eff (.readEnv "PROXY_HOST")] ++
  match pyIntParse (gsProxyPortStr env) with
  | Option.none =>
    [.eff (.readEnv "PROXY_PORT"),
     .raiseErr (pyIntErrorMsg (gsProxyPortStr env))]
  | some port =>
    [.eff (.readEnv "PROXY_PORT"),
     .eff (.readEnv "PROXY_PROTOCOL"),
     .eff (.readEnv "TELEGRAM_API_ID"),
     .eff (.readEnv "TELEGRAM_API_HASH"),
     .eff (.readEnv "TELEGRAM_SESSION_STRING"),
     .eff (.clientConstructTT (env "TELEGRAM_API_ID") (env "TELEGRAM_API_HASH")
            (env "TELEGRAM_SESSION_STRING")
            (gsProxyProtocol env) (gsProxyHost env) port),
     .eff (.printOut "🔌 Connecting to Telegram..."),
     .eff .startClient,
     .eff .getMe,
     .eff (.printOut ("\n✅ Connected as: " ++ meFirst ++ " (@" ++ meUser ++ ")")),
     .eff (.printOut "\n📋 Available GMGN signal groups:"),
     .eff .getDialogs] ++
    (ttDialogPrints dialogs).map Action.eff ++
    (if ttGroupIds dialogs = [] then
      [.eff (.printOut ttNotFoundMsg), .ret]
     else
      [.eff (.registerHandler (ttGroupIds dialogs)),
       .eff (.printOut "\n👂 Listening for new messages in all GMGN signal groups... (Press Ctrl+C to stop)"),
       .loop])

/-- `test_telegram()`: run the try-body; `except KeyboardInterrupt` prints the
farewell and falls through as a normal shutdown; `except Exception` prints
the error and calls `sys.exit(1)`; the `finally` block calls `app.stop()`
when `app` was assigned (a client was constructed).  A body that reaches the
sleep loop with no fault never terminates, so its `finally` never runs. -/
def test_telegram (env : EnvMap) (meFirst meUser : String) (dialogs : List Chat)
    (fault : Fault) : List Eff × ExitStatus :=
  let r := runActs (ttTryBody env meFirst meUser dialogs) 0 fault
  let fin : List Eff := if r.1.any isClientConstruct then [.stopClient] else []
  match r.2 with
  | .completed => (r.1 ++ fin, .normal)
  | .returned => (r.1 ++ fin, .normal)
  | .interrupted => (r.1 ++ [.printOut ttFarewellMsg] ++ fin, .normal)
  | .raisedErr m => (r.1 ++ [.printOut ("❌ Error: " ++ m)] ++ fin, .exitCode 1)
  | .diverged => (r.1, .diverges)

/-- A new message as seen by the handler and the platform: its chat id, its
thread/topic id, its sender's first name, its date and its text. -/
structure TgMessage where
  chatId : Int
  threadId : Option Int
  fromUserFirst : Option String
  date : String
  text : Option String
deriving DecidableEq, Repr

/-- The `filters.chat(list(group_ids.values()))` filter guarding the handler:
it accepts a message exactly when its chat id is in the id list. -/
def chatFilter (ids : List Int) (m : TgMessage) : Bool :=
  ids.contains m.chatId

/-- Does the registered `handle_new_message` handler fire for this message,
given the dialogs the script saw? -/
def handlerFires (dialogs : List Chat) (m : TgMessage) : Bool :=
  chatFilter (ttGroupIds dialogs) m

/-- The prints performed by `handle_new_message` on one message
(`chatTitle` is the title `get_chat` returns for the message's chat). -/
def handle_new_message (chatTitle : String) (m : TgMessage) : List Eff :=
  [.printOut ("\n📨 New message in " ++ chatTitle),
   .printOut ("From: " ++ (match m.fromUserFirst with
                           | some n => n
                           | Option.none => "Unknown")),
   .printOut ("Time: " ++ m.date),
   .printOut ("Content: " ++ pyStrOpt m.text),
   .printOut "---"]

/-! ### Trace observations used by the statements below -/

/-- The console questions asked during a trace, in order. -/
def questionsOf (tr : List Eff) : List String :=
  tr.filterMap fun e =>
    match e with
    | .promptIn s => some s
    | _ => Option.none

/-- Count the effects of a trace satisfying a predicate. -/
def countEffP (p : Eff → Bool) (tr : List Eff) : Nat :=
  (tr.filter p).length

/-- Count the effect-statements of a body satisfying a predicate. -/
def countActP (p : Eff → Bool) (acts : List Action) : Nat :=
  countEffP p (acts.filterMap actEff)

/-- Does the trace construct a client whose api id, api hash and session
string all received some (fallback) value? -/
def constructsWithDefaults (tr : List Eff) : Bool :=
  tr.any fun e =>
    match e with
    | .clientConstructTT (some _) (some _) (some _) _ _ _ => true
    | _ => false

/-- Expected trace of a complete `generate_session` run (the specification
side of the order claim): configuration reads, then the client construction,
then the login workflow, then the verbatim session-string print, then the
disconnect. -/
def gsFullTrace (env : EnvMap) (phone code sess : String) (port : Int) : List Eff :=
  [.printOut "🚀 Starting session generation...",
   .readEnv "PROXY_HOST",
   .readEnv "PROXY_PORT",
   .readEnv "PROXY_PROTOCOL",
   .promptIn gsPhoneQuestion,
   .clientConstructGS 27321288 "5c3202e68b0b9d356e7fc7daaec65e90"
     (gsProxyProtocol env) (gsProxyHost env) port,
   .printOut "🔌 Connecting to Telegram...",
   .connect,
   .printOut "📤 Sending code request...",
   .sendCode phone,
   .promptIn gsCodeQuestion,
   .printOut "🔐 Signing in...",
   .signIn phone code,
   .exportSession,
   .printOut "\n✅ Session string generated successfully!",
   .printOut "\n📋 Your session string:",
   .printOut sess,
   .printOut "\n💡 Add this to your .env file as TELEGRAM_SESSION_STRING",
   .disconnect]

/-- Expected setup segment of a `test_telegram` run (the specification side
of the order claim): configuration reads, then the client construction, then
the connection workflow up to the dialog enumeration. -/
def ttSetupEffs (env : EnvMap) (meFirst meUser : String) (port : Int) : List Eff :=
  [.printOut "🚀 Starting Telegram test...",
   .readEnv "PROXY_HOST",
   .readEnv "PROXY_PORT",
   .readEnv "PROXY_PROTOCOL",
   .readEnv "TELEGRAM_API_ID",
   .readEnv "TELEGRAM_API_HASH",
   .readEnv "TELEGRAM_SESSION_STRING",
   .clientConstructTT (env "TELEGRAM_API_ID") (env "TELEGRAM_API_HASH")
     (env "TELEGRAM_SESSION_STRING")
     (gsProxyProtocol env) (gsProxyHost env) port,
   .printOut "🔌 Connecting to Telegram...",
   .startClient,
   .getMe,
   .printOut ("\n✅ Connected as: " ++ meFirst ++ " (@" ++ meUser ++ ")"),
   .printOut "\n📋 Available GMGN signal groups:",
   .getDialogs]

/-! ### General lemmas about the statement runner -/

theorem runActs_cons_eff_noFault (e : Eff) (rest : List Action) (k : Nat) :
    runActs (Action.eff e :: rest) k Fault.noFault =
      (e :: (runActs rest (k + 1) Fault.noFault).1,
       (runActs rest (k + 1) Fault.noFault).2) := rfl

theorem runActs_cons_raise_noFault (m : String) (rest : List Action) (k : Nat) :
    runActs (Action.raiseErr m :: rest) k Fault.noFault = ([], .raisedErr m) := rfl

theorem runActs_cons_ret_noFault (rest : List Action) (k : Nat) :
    runActs (Action.ret :: rest) k Fault.noFault = ([], .returned) := rfl

theorem runActs_cons_loop_noFault (rest : List Action) (k : Nat) :
    runActs (Action.loop :: rest) k Fault.noFault = ([Eff.sleepLoop], .diverged) := rfl

theorem runActs_noFault_irrel : ∀ (acts : List Action) (k k' : Nat),
    runActs acts k Fault.noFault = runActs acts k' Fault.noFault := by
  intro acts
  induction acts with
  | nil => intro k k'; rfl
  | cons a rest ih =>
    intro k k'
    cases a with
    | eff e =>
      rw [runActs_cons_eff_noFault, runActs_cons_eff_noFault, ih (k + 1) (k' + 1)]
    | raiseErr m => rfl
    | ret => rfl
    | loop => rfl

theorem runActs_append_effs_noFault (L : List Eff) (rest : List Action) (k : Nat) :
    runActs (L.map Action.eff ++ rest) k Fault.noFault =
      (L ++ (runActs rest k Fault.noFault).1, (runActs rest k Fault.noFault).2) := by
  induction L generalizing k with
  | nil => simp
  | cons e L ih =>
    simp only [List.map_cons, List.cons_append, runActs_cons_eff_noFault]
    rw [ih (k + 1), runActs_noFault_irrel rest (k + 1) k]

theorem mem_runActs {e : Eff} :
    ∀ {acts : List Action} {k : Nat} {fault : Fault},
      e ∈ (runActs acts k fault).1 → Action.eff e ∈ acts ∨ e = Eff.sleepLoop := by
  intro acts
  induction acts with
  | nil => intro k fault h; simp [runActs] at h
  | cons a rest ih =>
    intro k fault h
    by_cases hf : faultHits fault k
    · simp [runActs, hf] at h
    · cases a with
      | eff e' =>
        simp only [runActs, hf, Bool.false_eq_true, if_false] at h
        rcases List.mem_cons.mp h with he | hm
        · exact Or.inl (he ▸ List.mem_cons_self _ _)
        · rcases ih hm with h1 | h2
          · exact Or.inl (List.mem_cons_of_mem _ h1)
          · exact Or.inr h2
      | raiseErr m => simp [runActs, hf] at h
      | ret => simp [runActs, hf] at h
      | loop =>
        rcases fault with _ | j | ⟨j, m⟩
        · simp [runActs, hf] at h
          exact Or.inr h
        · simp only [runActs, hf, Bool.false_eq_true, if_false] at h
          by_cases hkj : k ≤ j <;> simp [hkj] at h <;> exact Or.inr h
        · simp only [runActs, hf, Bool.false_eq_true, if_false] at h
          by_cases hkj : k ≤ j <;> simp [hkj] at h <;> exact Or.inr h

theorem runActs_completed :
    ∀ {acts : List Action} {k : Nat} {fault : Fault},
      (runActs acts k fault).2 = BodyResult.completed →
      ∀ a ∈ acts, ∃ e, a = Action.eff e := by
  intro acts
  induction acts with
  | nil => intro k fault _ a ha; simp at ha
  | cons a rest ih =>
    intro k fault h b hb
    by_cases hf : faultHits fault k
    · exfalso
      rcases fault with _ | j | ⟨j, m⟩
      · simp [faultHits] at hf
      · simp [runActs, hf] at h
      · simp [runActs, hf] at h
    · cases a with
      | eff e' =>
        simp only [runActs, hf, Bool.false_eq_true, if_false] at h
        rcases List.mem_cons.mp hb with he | hm
        · exact ⟨e', he⟩
        · exact ih h b hm
      | raiseErr m => simp [runActs, hf] at h
      | ret => simp [runActs, hf] at h
      | loop =>
        exfalso
        rcases fault with _ | j | ⟨j, m⟩
        · simp [runActs, hf] at h
        · simp only [runActs, hf, Bool.false_eq_true, if_false] at h
          by_cases hkj : k ≤ j <;> simp [hkj] at h
        · simp only [runActs, hf, Bool.false_eq_true, if_false] at h
          by_cases hkj : k ≤ j <;> simp [hkj] at h

theorem runActs_returned :
    ∀ {acts : List Action} {k : Nat} {fault : Fault},
      (runActs acts k fault).2 = BodyResult.returned → Action.ret ∈ acts := by
  intro acts
  induction acts with
  | nil => intro k fault h; simp [runActs] at h
  | cons a rest ih =>
    intro k fault h
    by_cases hf : faultHits fault k
    · exfalso
      rcases fault with _ | j | ⟨j, m⟩
      · simp [faultHits] at hf
      · simp [runActs, hf] at h
      · simp [runActs, hf] at h
    · cases a with
      | eff e' =>
        simp only [runActs, hf, Bool.false_eq_true, if_false] at h
        exact List.mem_cons_of_mem _ (ih h)
      | raiseErr m => simp [runActs, hf] at h
      | ret => exact List.mem_cons_self _ _
      | loop =>
        exfalso
        rcases fault with _ | j | ⟨j, m⟩
        · simp [runActs, hf] at h
        · simp only [runActs, hf, Bool.false_eq_true, if_false] at h
          by_cases hkj : k ≤ j <;> simp [hkj] at h
        · simp only [runActs, hf, Bool.false_eq_true, if_false] at h
          by_cases hkj : k ≤ j <;> simp [hkj] at h

theorem runActs_lastEff {d : Eff} (hd : d ≠ Eff.sleepLoop) :
    ∀ (pre : List Action) (k : Nat) (fault : Fault),
      Action.eff d ∉ pre →
      (d ∈ (runActs (pre ++ [Action.eff d]) k fault).1 ↔
        (runActs (pre ++ [Action.eff d]) k fault).2 = BodyResult.completed) := by
  intro pre
  induction pre with
  | nil =>
    intro k fault _
    by_cases hf : faultHits fault k
    · rcases fault with _ | j | ⟨j, m⟩
      · simp [faultHits] at hf
      · simp [runActs, hf]
      · simp [runActs, hf]
    · simp [runActs, hf]
  | cons a rest ih =>
    intro k fault hnot
    have hnota : Action.eff d ≠ a := fun h => hnot (h ▸ List.mem_cons_self a rest)
    have hnotrest : Action.eff d ∉ rest := fun h => hnot (List.mem_cons_of_mem a h)
    by_cases hf : faultHits fault k
    · rcases fault with _ | j | ⟨j, m⟩
      · simp [faultHits] at hf
      · simp [runActs, hf]
      · simp [runActs, hf]
    · cases a with
      | eff e =>
        have he : d ≠ e := fun h => hnota (by rw [h])
        simp only [List.cons_append, runActs, hf, Bool.false_eq_true, if_false]
        rw [List.mem_cons]
        simp only [he, false_or]
        exact ih (k + 1) fault hnotrest
      | raiseErr m => simp [runActs, hf]
      | ret => simp [runActs, hf]
      | loop =>
        rcases fault with _ | j | ⟨j, m⟩
        · simp [runActs, hf, hd]
        · simp only [List.cons_append, runActs, hf, Bool.false_eq_true, if_false]
          by_cases hkj : k ≤ j <;> simp [hkj, hd]
        · simp only [List.cons_append, runActs, hf, Bool.false_eq_true, if_false]
          by_cases hkj : k ≤ j <;> simp [hkj, hd]

theorem countEffP_cons (p : Eff → Bool) (e : Eff) (tr : List Eff) :
    countEffP p (e :: tr) = (if p e then 1 else 0) + countEffP p tr := by
  by_cases hp : p e <;> simp [countEffP, List.filter_cons, hp] <;> omega

theorem countEffP_append (p : Eff → Bool) (tr tr' : List Eff) :
    countEffP p (tr ++ tr') = countEffP p tr + countEffP p tr' := by
  simp [countEffP, List.filter_append]

theorem countEffP_runActs {p : Eff → Bool} (hp : p Eff.sleepLoop = false) :
    ∀ (acts : List Action) (k : Nat) (fault : Fault),
      countEffP p (runActs acts k fault).1 ≤ countActP p acts := by
  intro acts
  induction acts with
  | nil => intro k fault; simp [runActs, countEffP, countActP]
  | cons a rest ih =>
    intro k fault
    by_cases hf : faultHits fault k
    · rcases fault with _ | j | ⟨j, m⟩
      · simp [faultHits] at hf
      · simp [runActs, hf, countEffP]
      · simp [runActs, hf, countEffP]
    · cases a with
      | eff e =>
        simp only [runActs, hf, Bool.false_eq_true, if_false]
        rw [countEffP_cons]
        have : countActP p (Action.eff e :: rest) =
            (if p e then 1 else 0) + countActP p rest := by
          simp only [countActP, List.filterMap_cons, actEff]
          rw [countEffP_cons]
        rw [this]
        exact Nat.add_le_add_left (ih (k + 1) fault) _
      | raiseErr m => simp [runActs, hf, countEffP]
      | ret => simp [runActs, hf, countEffP]
      | loop =>
        have hz : countEffP p [Eff.sleepLoop] = 0 := by
          simp [countEffP, List.filter_cons, hp]
        rcases fault with _ | j | ⟨j, m⟩ <;>
          simp only [runActs, hf, Bool.false_eq_true, if_false] <;>
          first
            | (rw [hz]; exact Nat.zero_le _)
            | (by_cases hkj : k ≤ j <;> simp [hkj, hz] <;> exact Nat.zero_le _)

/-! ### Lemmas about the group dictionary and the dialog loop -/

theorem dictInsert_ne_nil (d : List (String × Int)) (k : String) (v : Int) :
    dictInsert d k v ≠ [] := by
  unfold dictInsert
  by_cases h : d.any (fun p => p.1 == k)
  · rw [if_pos h]
    intro hmap
    rw [List.map_eq_nil] at hmap
    rw [hmap] at h
    simp at h
  · rw [if_neg h]
    simp

theorem mem_dictInsert {p : String × Int} {d : List (String × Int)} {k : String} {v : Int}
    (h : p ∈ dictInsert d k v) : p ∈ d ∨ p = (k, v) := by
  unfold dictInsert at h
  by_cases hany : d.any (fun q => q.1 == k)
  · rw [if_pos hany] at h
    rcases List.mem_map.mp h with ⟨q, hq, hpq⟩
    by_cases hk : q.1 == k
    · right
      rw [← hpq]
      simp [hk]
    · left
      rw [← hpq]
      simp only [hk, Bool.false_eq_true, if_false]
      exact hq
  · rw [if_neg hany] at h
    rcases List.mem_append.mp h with h1 | h1
    · exact Or.inl h1
    · right
      simpa using h1

theorem ttGroupDict_mem {dialogs : List Chat} {p : String × Int}
    (h : p ∈ ttGroupDict dialogs) :
    ∃ c ∈ dialogs, matchesGmgn c = true ∧ p = (c.title, c.id) := by
  suffices aux : ∀ (ds : List Chat) (acc : List (String × Int)) (p : String × Int),
      p ∈ ds.foldl (fun d c => if matchesGmgn c then dictInsert d c.title c.id else d) acc →
      p ∈ acc ∨ ∃ c ∈ ds, matchesGmgn c = true ∧ p = (c.title, c.id) by
    rcases aux dialogs [] p h with h1 | h1
    · simp at h1
    · exact h1
  intro ds
  induction ds with
  | nil =>
    intro acc p h
    exact Or.inl h
  | cons c ds ih =>
    intro acc p h
    simp only [List.foldl_cons] at h
    rcases ih _ p h with h1 | h1
    · by_cases hm : matchesGmgn c
      · rw [if_pos hm] at h1
        rcases mem_dictInsert h1 with h2 | h2
        · exact Or.inl h2
        · exact Or.inr ⟨c, List.mem_cons_self c ds, hm, h2⟩
      · rw [if_neg hm] at h1
        exact Or.inl h1
    · rcases h1 with ⟨c', hc', hm', hp'⟩
      exact Or.inr ⟨c', List.mem_cons_of_mem c hc', hm', hp'⟩

theorem ttGroupDict_eq_nil {dialogs : List Chat} (h : ttGroupDict dialogs = []) :
    ∀ c ∈ dialogs, matchesGmgn c = false := by
  suffices aux : ∀ (ds : List Chat) (acc : List (String × Int)),
      ds.foldl (fun d c => if matchesGmgn c then dictInsert d c.title c.id else d) acc = [] →
      acc = [] ∧ ∀ c ∈ ds, matchesGmgn c = false by
    exact (aux dialogs [] h).2
  intro ds
  induction ds with
  | nil =>
    intro acc h
    exact ⟨h, by simp⟩
  | cons c ds ih =>
    intro acc h
    simp only [List.foldl_cons] at h
    rcases ih _ h with ⟨hstep, hrest⟩
    by_cases hm : matchesGmgn c
    · rw [if_pos hm] at hstep
      exact absurd hstep (dictInsert_ne_nil acc c.title c.id)
    · rw [if_neg hm] at hstep
      refine ⟨hstep, ?_⟩
      intro c' hc'
      rcases List.mem_cons.mp hc' with he | hmem
      · rw [he]
        exact Bool.eq_false_iff.mpr hm
      · exact hrest c' hmem

theorem ttDialogPrints_cons (c : Chat) (ds : List Chat) :
    ttDialogPrints (c :: ds) =
      (if matchesGmgn c then [Eff.printOut (ttDialogLine c)] else []) ++
        ttDialogPrints ds := rfl

theorem ttDialogPrints_eq_nil {dialogs : List Chat}
    (h : ∀ c ∈ dialogs, matchesGmgn c = false) : ttDialogPrints dialogs = [] := by
  induction dialogs with
  | nil => rfl
  | cons c ds ih =>
    rw [ttDialogPrints_cons, h c (List.mem_cons_self c ds)]
    simp only [Bool.false_eq_true, if_false, List.nil_append]
    exact ih fun c' hc' => h c' (List.mem_cons_of_mem c hc')

theorem mem_ttDialogPrints {e : Eff} :
    ∀ {dialogs : List Chat}, e ∈ ttDialogPrints dialogs →
      ∃ c, e = Eff.printOut (ttDialogLine c) := by
  intro dialogs
  induction dialogs with
  | nil =>
    intro h
    simp [ttDialogPrints] at h
  | cons c ds ih =>
    intro h
    rw [ttDialogPrints_cons] at h
    rcases List.mem_append.mp h with h1 | h1
    · by_cases hm : matchesGmgn c
      · rw [if_pos hm] at h1
        simp at h1
        exact ⟨c, h1⟩
      · rw [if_neg hm] at h1
        simp at h1
    · exact ih h1

/-! ### Shape lemmas about the two script bodies -/

theorem gs_no_ret (env : EnvMap) (p c s : String) : Action.ret ∉ gsTryBody env p c s := by
  intro h
  unfold gsTryBody at h
  cases hp : pyIntParse (gsProxyPortStr env) <;> simp [hp] at h

theorem tt_no_ret_of_groups {env : EnvMap} {mf mu : String} {dialogs : List Chat}
    (hg : ttGroupIds dialogs ≠ []) : Action.ret ∉ ttTryBody env mf mu dialogs := by
  intro h
  unfold ttTryBody at h
  cases hp : pyIntParse (gsProxyPortStr env) <;> simp [hp, hg] at h

theorem gs_question {env : EnvMap} {p c s q : String}
    (h : Action.eff (Eff.promptIn q) ∈ gsTryBody env p c s) :
    q = gsPhoneQuestion ∨ q = gsCodeQuestion := by
  unfold gsTryBody at h
  cases hp : pyIntParse (gsProxyPortStr env) <;> simp [hp] at h
  rcases h with h | h
  · exact Or.inl h
  · exact Or.inr h

theorem tt_no_question {env : EnvMap} {mf mu : String} {dialogs : List Chat} {q : String} :
    Action.eff (Eff.promptIn q) ∉ ttTryBody env mf mu dialogs := by
  intro h
  unfold ttTryBody at h
  cases hp : pyIntParse (gsProxyPortStr env) <;> simp [hp] at h
  rcases h with h | h
  · rcases mem_ttDialogPrints h with ⟨c, hc⟩
    simp at hc
  · by_cases hg : ttGroupIds dialogs = [] <;> simp [hg] at h

theorem gs_no_forbidden {env : EnvMap} {p c s : String} {e : Eff}
    (h : Action.eff e ∈ gsTryBody env p c s) : isForbiddenOutput e = false := by
  unfold gsTryBody at h
  cases hp : pyIntParse (gsProxyPortStr env)
  · simp [hp] at h
    rcases h with h | h | h <;> subst h <;> rfl
  · simp [hp] at h
    rcases h with
      h | h | h | h | h | h | h | h | h | h | h | h | h | h | h | h | h | h | h <;>
      subst h <;> rfl

theorem tt_no_forbidden {env : EnvMap} {mf mu : String} {dialogs : List Chat} {e : Eff}
    (h : Action.eff e ∈ ttTryBody env mf mu dialogs) : isForbiddenOutput e = false := by
  unfold ttTryBody at h
  cases hp : pyIntParse (gsProxyPortStr env)
  · simp [hp] at h
    rcases h with h | h | h <;> subst h <;> rfl
  · by_cases hg : ttGroupIds dialogs = []
    · simp [hp, hg] at h
      rcases h with
        h | h | h | h | h | h | h | h | h | h | h | h | h | h | h | h <;>
        first
          | (subst h; rfl)
          | (rcases mem_ttDialogPrints h with ⟨c, hc⟩; subst hc; rfl)
    · simp [hp, hg] at h
      rcases h with
        h | h | h | h | h | h | h | h | h | h | h | h | h | h | h | h | h <;>
        first
          | (subst h; rfl)
          | (rcases mem_ttDialogPrints h with ⟨c, hc⟩; subst hc; rfl)

theorem countActP_append (p : Eff → Bool) (a b : List Action) :
    countActP p (a ++ b) = countActP p a + countActP p b := by
  simp [countActP, countEffP, List.filterMap_append, List.filter_append]

theorem countActP_map_eff (p : Eff → Bool) (L : List Eff) :
    countActP p (L.map Action.eff) = countEffP p L := by
  have hid : L.filterMap (actEff ∘ Action.eff) = L := by
    induction L with
    | nil => rfl
    | cons e L ih => simp [List.filterMap_cons, Function.comp, actEff, ih]
  simp [countActP, List.filterMap_map, hid]

theorem countEffP_eq_zero {p : Eff → Bool} {tr : List Eff}
    (h : ∀ e ∈ tr, p e = false) : countEffP p tr = 0 := by
  simp only [countEffP, List.length_eq_zero, List.filter_eq_nil]
  intro e he
  simp [h e he]

theorem countEffP_ttDialogPrints (p : Eff → Bool)
    (hpr : ∀ s, p (Eff.printOut s) = false) (dialogs : List Chat) :
    countEffP p (ttDialogPrints dialogs) = 0 :=
  countEffP_eq_zero fun e he => by
    rcases mem_ttDialogPrints he with ⟨c, hc⟩
    rw [hc]
    exact hpr _

theorem gs_connect_bound (env : EnvMap) (p c s : String) :
    countActP isConnect (gsTryBody env p c s) ≤ 1 := by
  unfold gsTryBody
  cases hp : pyIntParse (gsProxyPortStr env) <;>
    simp [hp, countActP, countEffP, actEff, isConnect,
      List.filterMap_append, List.filter_append]

theorem tt_start_bound (env : EnvMap) (mf mu : String) (dialogs : List Chat) :
    countActP isStartClient (ttTryBody env mf mu dialogs) ≤ 1 := by
  unfold ttTryBody
  cases hp : pyIntParse (gsProxyPortStr env)
  · simp [hp, countActP, countEffP, actEff, isStartClient,
      List.filterMap_append, List.filter_append]
  · have hd : countEffP isStartClient (ttDialogPrints dialogs) = 0 :=
      countEffP_ttDialogPrints _ (fun _ => rfl) dialogs
    by_cases hg : ttGroupIds dialogs = [] <;>
      simp only [hp, hg, if_true, if_false, eq_self_iff_true,
        countActP_append, countActP_map_eff, hd] <;>
      simp [countActP, countEffP, actEff, isStartClient]

/-! ### Full-trace lemmas for fault-free runs -/

theorem gs_trace_noFault (env : EnvMap) (p c s : String) (port : Int)
    (hp : pyIntParse (gsProxyPortStr env) = some port) :
    runActs (gsTryBody env p c s) 0 Fault.noFault =
      (gsFullTrace env p c s port, BodyResult.completed) := by
  unfold gsTryBody gsFullTrace
  simp [hp, runActs, faultHits]

theorem gs_trace_badPort (env : EnvMap) (p c s : String)
    (hp : pyIntParse (gsProxyPortStr env) = Option.none) :
    runActs (gsTryBody env p c s) 0 Fault.noFault =
      ([Eff.printOut "🚀 Starting session generation...",
        Eff.readEnv "PROXY_HOST",
        Eff.readEnv "PROXY_PORT"],
       BodyResult.raisedErr (pyIntErrorMsg (gsProxyPortStr env))) := by
  unfold gsTryBody
  simp [hp, runActs, faultHits]

theorem tt_trace_noFault (env : EnvMap) (mf mu : String) (dialogs : List Chat) (port : Int)
    (hp : pyIntParse (gsProxyPortStr env) = some port) :
    runActs (ttTryBody env mf mu dialogs) 0 Fault.noFault =
      (ttSetupEffs env mf mu port ++ ttDialogPrints dialogs ++
        (if ttGroupIds dialogs = [] then
          [Eff.printOut ttNotFoundMsg]
         else
          [Eff.registerHandler (ttGroupIds dialogs),
           Eff.printOut "\n👂 Listening for new messages in all GMGN signal groups... (Press Ctrl+C to stop)",
           Eff.sleepLoop]),
       if ttGroupIds dialogs = [] then BodyResult.returned else BodyResult.diverged) := by
  unfold ttTryBody ttSetupEffs
  by_cases hg : ttGroupIds dialogs = [] <;>
    simp [hp, hg, runActs, faultHits, runActs_append_effs_noFault, List.append_assoc]

theorem tt_trace_badPort (env : EnvMap) (mf mu : String) (dialogs : List Chat)
    (hp : pyIntParse (gsProxyPortStr env) = Option.none) :
    runActs (ttTryBody env mf mu dialogs) 0 Fault.noFault =
      ([Eff.printOut "🚀 Starting Telegram test...",
        Eff.readEnv "PROXY_HOST",
        Eff.readEnv "PROXY_PORT"],
       BodyResult.raisedErr (pyIntErrorMsg (gsProxyPortStr env))) := by
  unfold ttTryBody
  simp [hp, runActs, faultHits]

/-! ### Wrapper-level membership lemmas -/

theorem mem_questionsOf {q : String} {tr : List Eff} :
    q ∈ questionsOf tr ↔ Eff.promptIn q ∈ tr := by
  induction tr with
  | nil => simp [questionsOf]
  | cons e tr ih =>
    cases e <;>
      simp only [questionsOf, List.filterMap_cons] at ih ⊢ <;>
      simp [List.mem_cons, ih]

theorem mem_generate_session {e : Eff} {env : EnvMap} {p c s : String} {fault : Fault}
    (h : e ∈ (generate_session env p c s fault).1) :
    Action.eff e ∈ gsTryBody env p c s ∨ e = Eff.sleepLoop ∨
      ∃ m, e = Eff.printOut ("❌ Error generating session: " ++ m) := by
  unfold generate_session at h
  cases hres : (runActs (gsTryBody env p c s) 0 fault).2 <;> simp [hres] at h
  case raisedErr m =>
    rcases h with h | h
    · rcases mem_runActs h with h1 | h1
      · exact Or.inl h1
      · exact Or.inr (Or.inl h1)
    · exact Or.inr (Or.inr ⟨m, h⟩)
  all_goals
    rcases mem_runActs h with h1 | h1
    · exact Or.inl h1
    · exact Or.inr (Or.inl h1)

theorem mem_test_telegram {e : Eff} {env : EnvMap} {mf mu : String}
    {dialogs : List Chat} {fault : Fault}
    (h : e ∈ (test_telegram env mf mu dialogs fault).1) :
    Action.eff e ∈ ttTryBody env mf mu dialogs ∨ e = Eff.sleepLoop ∨
      e = Eff.printOut ttFarewellMsg ∨
      (∃ m, e = Eff.printOut ("❌ Error: " ++ m)) ∨
      e = Eff.stopClient := by
  unfold test_telegram at h
  cases hres : (runActs (ttTryBody env mf mu dialogs) 0 fault).2 <;> simp [hres] at h
  case interrupted =>
    rcases h with h | h | ⟨-, h⟩
    · rcases mem_runActs h with h1 | h1
      · exact Or.inl h1
      · exact Or.inr (Or.inl h1)
    · exact Or.inr (Or.inr (Or.inl h))
    · exact Or.inr (Or.inr (Or.inr (Or.inr h)))
  case raisedErr m =>
    rcases h with h | h | ⟨-, h⟩
    · rcases mem_runActs h with h1 | h1
      · exact Or.inl h1
      · exact Or.inr (Or.inl h1)
    · exact Or.inr (Or.inr (Or.inr (Or.inl ⟨m, h⟩)))
    · exact Or.inr (Or.inr (Or.inr (Or.inr h)))
  case diverged =>
    rcases mem_runActs h with h1 | h1
    · exact Or.inl h1
    · exact Or.inr (Or.inl h1)
  all_goals
    rcases h with h | ⟨-, h⟩
    · rcases mem_runActs h with h1 | h1
      · exact Or.inl h1
      · exact Or.inr (Or.inl h1)
    · exact Or.inr (Or.inr (Or.inr (Or.inr h)))

theorem countEffP_le_one_of_body {p : Eff → Bool} (hsl : p Eff.sleepLoop = false)
    {acts : List Action} (hb : countActP p acts ≤ 1) (k : Nat) (fault : Fault) :
    countEffP p (runActs acts k fault).1 ≤ 1 :=
  le_trans (countEffP_runActs hsl acts k fault) hb

/-! ### Claim C1: environment-variable fallback defaults -/

/-- Claim C1 counterexample: with every environment variable unset, the
listener constructs its client with `None` for the API identifier, the API
secret and the session token — no hardcoded fallback default is substituted
for any of them — refuting the claim that each consumed environment variable
falls back to a hardcoded default when unset. -/
theorem c1_counterexample :
    constructsWithDefaults (test_telegram emptyEnv "f" "u" [] Fault.noFault).1 = false ∧
    Eff.clientConstructTT Option.none Option.none Option.none "socks5" "127.0.0.1" 10808
      ∈ (test_telegram emptyEnv "f" "u" [] Fault.noFault).1 := by
  constructor
  · decide
  · decide

/-- Claim C1 (amended): the proxy host, port and protocol variables are
optional with hardcoded fallback defaults (127.0.0.1, 10808, socks5); the
session script hardcodes its API identifier and secret as literals instead
of reading them from the environment, and the listener reads the API
identifier, the API secret and the session token with no default, so its
client receives `None` for each of them left unset. -/
theorem c1_defaults_amended (env : EnvMap) (p c s mf mu : String) (dialogs : List Chat) :
    (env "PROXY_HOST" = Option.none → gsProxyHost env = "127.0.0.1") ∧
    (env "PROXY_PORT" = Option.none → gsProxyPortStr env = "10808") ∧
    (env "PROXY_PROTOCOL" = Option.none → gsProxyProtocol env = "socks5") ∧
    (env "PROXY_PORT" = Option.none →
      Eff.clientConstructGS 27321288 "5c3202e68b0b9d356e7fc7daaec65e90"
          (gsProxyProtocol env) (gsProxyHost env) 10808
        ∈ (generate_session env p c s Fault.noFault).1 ∧
      Eff.clientConstructTT (env "TELEGRAM_API_ID") (env "TELEGRAM_API_HASH")
          (env "TELEGRAM_SESSION_STRING") (gsProxyProtocol env) (gsProxyHost env) 10808
        ∈ (test_telegram env mf mu dialogs Fault.noFault).1) := by
  refine ⟨?_, ?_, ?_, ?_⟩
  · intro h
    simp [gsProxyHost, osGetenvD, h]
  · intro h
    simp [gsProxyPortStr, osGetenvD, h]
  · intro h
    simp [gsProxyProtocol, osGetenvD, h]
  · intro h
    have hps : gsProxyPortStr env = "10808" := by simp [gsProxyPortStr, osGetenvD, h]
    have hp : pyIntParse (gsProxyPortStr env) = some 10808 := by
      rw [hps]
      decide
    constructor
    · unfold generate_session
      rw [gs_trace_noFault env p c s 10808 hp]
      simp [gsFullTrace]
    · unfold test_telegram
      rw [tt_trace_noFault env mf mu dialogs 10808 hp]
      by_cases hg : ttGroupIds dialogs = [] <;> simp [hg, ttSetupEffs]

/-- Witness for C1 (amended) at the empty environment. -/
theorem c1_witness :
    gsProxyHost emptyEnv = "127.0.0.1" ∧
    Eff.clientConstructTT Option.none Option.none Option.none "socks5" "127.0.0.1" 10808
      ∈ (test_telegram emptyEnv "a" "b" [] Fault.noFault).1 := by
  refine ⟨(c1_defaults_amended emptyEnv "p" "c" "s" "a" "b" []).1 rfl, ?_⟩
  exact ((c1_defaults_amended emptyEnv "p" "c" "s" "a" "b" []).2.2.2 rfl).2

/-! ### Claim C2: the interactive console prompts -/

/-- Claim C2 counterexample: a complete fault-free run of the session script
asks exactly the phone-number and the verification-code questions, and a run
of the listener asks nothing — there is no third, group-identifier prompt
anywhere, refuting the claim that the prompts are exactly phone number,
verification code and a target group identifier. -/
theorem c2_counterexample :
    questionsOf (generate_session emptyEnv "p" "c" "s" Fault.noFault).1 =
      [gsPhoneQuestion, gsCodeQuestion] ∧
    questionsOf (test_telegram emptyEnv "f" "u" [] Fault.noFault).1 = [] := by
  constructor
  · decide
  · decide

/-- Claim C2 (amended): every console question any run of either script asks
is the phone-number question or the verification-code question, both asked
by the session script; the listener script never prompts, and no
group-identifier prompt (and no integer parsing of console input) exists. -/
theorem c2_questions_amended :
    (∀ (env : EnvMap) (p c s : String) (fault : Fault) (q : String),
       q ∈ questionsOf (generate_session env p c s fault).1 →
       q = gsPhoneQuestion ∨ q = gsCodeQuestion) ∧
    (∀ (env : EnvMap) (mf mu : String) (dialogs : List Chat) (fault : Fault),
       questionsOf (test_telegram env mf mu dialogs fault).1 = []) := by
  constructor
  · intro env p c s fault q hq
    have hm := mem_questionsOf.mp hq
    rcases mem_generate_session hm with h | h | ⟨m, h⟩
    · exact gs_question h
    · exact absurd h (by simp)
    · exact absurd h (by simp)
  · intro env mf mu dialogs fault
    rw [List.eq_nil_iff_forall_not_mem]
    intro q hq
    have hm := mem_questionsOf.mp hq
    rcases mem_test_telegram hm with h | h | h | ⟨m, h⟩ | h
    · exact tt_no_question h
    · simp at h
    · simp [ttFarewellMsg] at h
    · simp at h
    · simp at h

/-- Witness for C2 (amended): the phone-number question asked by a concrete
run is one of the two session-script questions. -/
theorem c2_witness :
    gsPhoneQuestion = gsPhoneQuestion ∨ gsPhoneQuestion = gsCodeQuestion :=
  c2_questions_amended.1 emptyEnv "p" "c" "s" Fault.noFault gsPhoneQuestion (by decide)

/-! ### Claim C4: keyboard interruption as a shutdown path -/

/-- Claim C4 counterexample: a session-script run interrupted by the keyboard
signal at the phone prompt ends with an unhandled KeyboardInterrupt — not a
normal shutdown — because `except Exception` does not catch the interrupt. -/
theorem c4_counterexample :
    (generate_session emptyEnv "p" "c" "s" (Fault.interruptAt 4)).2 ≠ ExitStatus.normal ∧
    (generate_session emptyEnv "p" "c" "s" (Fault.interruptAt 4)).2 =
      ExitStatus.unhandled "KeyboardInterrupt" := by
  constructor
  · decide
  · decide

/-- Claim C4 (amended): a listener run whose body is interrupted by the
keyboard signal ends as a normal shutdown — it prints the farewell message
and exits without an error status; in the session script the interrupt is
not caught, and such a run ends with an unhandled KeyboardInterrupt rather
than a normal exit. -/
theorem c4_interrupt_amended :
    (∀ (env : EnvMap) (mf mu : String) (dialogs : List Chat) (fault : Fault),
       (runActs (ttTryBody env mf mu dialogs) 0 fault).2 = BodyResult.interrupted →
       (test_telegram env mf mu dialogs fault).2 = ExitStatus.normal ∧
       Eff.printOut ttFarewellMsg ∈ (test_telegram env mf mu dialogs fault).1) ∧
    (∀ (env : EnvMap) (p c s : String) (fault : Fault),
       (runActs (gsTryBody env p c s) 0 fault).2 = BodyResult.interrupted →
       (generate_session env p c s fault).2 = ExitStatus.unhandled "KeyboardInterrupt") := by
  constructor
  · intro env mf mu dialogs fault h
    unfold test_telegram
    simp [h]
  · intro env p c s fault h
    unfold generate_session
    simp [h]

/-- Witness for C4 (amended): a concrete interrupted listener run ends
normally with the farewell printed. -/
theorem c4_witness :
    (test_telegram emptyEnv "f" "u" [] (Fault.interruptAt 2)).2 = ExitStatus.normal ∧
    Eff.printOut ttFarewellMsg ∈ (test_telegram emptyEnv "f" "u" [] (Fault.interruptAt 2)).1 :=
  c4_interrupt_amended.1 emptyEnv "f" "u" [] (Fault.interruptAt 2) (by decide)

/-! ### Claim C5: the broad exception handler -/

/-- Claim C5: every error exception raised inside either script's body is
caught by the single broad `except Exception` handler, which prints the
error message and exits the process with status 1; and no retry or recovery
is performed — no run ever performs its connection call (`app.connect()` or
`app.start()`) more than once. -/
theorem c5_error_handler :
    (∀ (env : EnvMap) (p c s : String) (fault : Fault) (m : String),
       (runActs (gsTryBody env p c s) 0 fault).2 = BodyResult.raisedErr m →
       (generate_session env p c s fault).2 = ExitStatus.exitCode 1 ∧
       Eff.printOut ("❌ Error generating session: " ++ m)
         ∈ (generate_session env p c s fault).1) ∧
    (∀ (env : EnvMap) (mf mu : String) (dialogs : List Chat) (fault : Fault) (m : String),
       (runActs (ttTryBody env mf mu dialogs) 0 fault).2 = BodyResult.raisedErr m →
       (test_telegram env mf mu dialogs fault).2 = ExitStatus.exitCode 1 ∧
       Eff.printOut ("❌ Error: " ++ m) ∈ (test_telegram env mf mu dialogs fault).1) ∧
    (∀ (env : EnvMap) (p c s : String) (fault : Fault),
       countEffP isConnect (generate_session env p c s fault).1 ≤ 1) ∧
    (∀ (env : EnvMap) (mf mu : String) (dialogs : List Chat) (fault : Fault),
       countEffP isStartClient (test_telegram env mf mu dialogs fault).1 ≤ 1) := by
  refine ⟨?_, ?_, ?_, ?_⟩
  · intro env p c s fault m h
    unfold generate_session
    simp [h]
  · intro env mf mu dialogs fault m h
    unfold test_telegram
    simp [h]
  · intro env p c s fault
    have hbody : countEffP isConnect (runActs (gsTryBody env p c s) 0 fault).1 ≤ 1 :=
      countEffP_le_one_of_body rfl (gs_connect_bound env p c s) 0 fault
    unfold generate_session
    cases hres : (runActs (gsTryBody env p c s) 0 fault).2 <;> simp only [hres]
    case raisedErr m =>
      rw [countEffP_append]
      have hz : countEffP isConnect
          [Eff.printOut ("❌ Error generating session: " ++ m)] = 0 := by
        simp [countEffP, List.filter_cons, isConnect]
      omega
    all_goals exact hbody
  · intro env mf mu dialogs fault
    have hbody : countEffP isStartClient
        (runActs (ttTryBody env mf mu dialogs) 0 fault).1 ≤ 1 :=
      countEffP_le_one_of_body rfl (tt_start_bound env mf mu dialogs) 0 fault
    have hfin : ∀ b : Bool, countEffP isStartClient
        (if b = true then [Eff.stopClient] else []) = 0 := by
      intro b
      cases b <;> simp [countEffP, List.filter_cons, isStartClient]
    have hpr : ∀ q, countEffP isStartClient [Eff.printOut q] = 0 := by
      intro q
      simp [countEffP, List.filter_cons, isStartClient]
    unfold test_telegram
    cases hres : (runActs (ttTryBody env mf mu dialogs) 0 fault).2 <;> simp only [hres]
    case diverged => exact hbody
    case interrupted =>
      rw [countEffP_append, countEffP_append, hpr,
        hfin ((runActs (ttTryBody env mf mu dialogs) 0 fault).1.any isClientConstruct)]
      omega
    case raisedErr m =>
      rw [countEffP_append, countEffP_append, hpr,
        hfin ((runActs (ttTryBody env mf mu dialogs) 0 fault).1.any isClientConstruct)]
      omega
    all_goals
      rw [countEffP_append,
        hfin ((runActs (ttTryBody env mf mu dialogs) 0 fault).1.any isClientConstruct)]
      omega

/-- Witness for C5 at a concrete raised exception. -/
theorem c5_witness :
    (generate_session emptyEnv "p" "c" "s" (Fault.errorAt 0 "boom")).2 =
      ExitStatus.exitCode 1 ∧
    Eff.printOut ("❌ Error generating session: " ++ "boom")
      ∈ (generate_session emptyEnv "p" "c" "s" (Fault.errorAt 0 "boom")).1 :=
  c5_error_handler.1 emptyEnv "p" "c" "s" (Fault.errorAt 0 "boom") "boom" (by decide)

/-! ### Claim C3: the disconnect path -/

/-- Claim C3 counterexample: a session-script run interrupted by the keyboard
signal terminates (it does not diverge) without ever calling
`app.disconnect()` — the disconnect path is not reached on every
termination. -/
theorem c3_counterexample :
    (generate_session emptyEnv "p" "c" "s" (Fault.interruptAt 6)).2 ≠ ExitStatus.diverges ∧
    Eff.disconnect ∉ (generate_session emptyEnv "p" "c" "s" (Fault.interruptAt 6)).1 := by
  constructor
  · decide
  · decide

/-- Claim C3 (amended): in the listener script every terminating run that
constructed a client reaches the `finally` block's single `app.stop()` call;
in the session script `app.disconnect()` is called exactly on the runs that
complete without any exception or interrupt — a faulted termination skips
it. -/
theorem c3_disconnect_amended :
    (∀ (env : EnvMap) (mf mu : String) (dialogs : List Chat) (fault : Fault),
       (test_telegram env mf mu dialogs fault).2 ≠ ExitStatus.diverges →
       (test_telegram env mf mu dialogs fault).1.any isClientConstruct = true →
       Eff.stopClient ∈ (test_telegram env mf mu dialogs fault).1) ∧
    (∀ (env : EnvMap) (p c s : String) (fault : Fault),
       Eff.disconnect ∈ (generate_session env p c s fault).1 ↔
       (generate_session env p c s fault).2 = ExitStatus.normal) := by
  constructor
  · intro env mf mu dialogs fault hnd hany
    unfold test_telegram at hnd hany ⊢
    cases hres : (runActs (ttTryBody env mf mu dialogs) 0 fault).2 <;>
      simp only [hres] at hnd hany ⊢
    case diverged => exact absurd rfl hnd
    all_goals
      by_cases hc :
        (runActs (ttTryBody env mf mu dialogs) 0 fault).1.any isClientConstruct = true
      · simp [hc]
      · simp [hc, List.any_append, isClientConstruct] at hany
  · intro env p c s fault
    have hkey : Eff.disconnect ∈ (runActs (gsTryBody env p c s) 0 fault).1 ↔
        (runActs (gsTryBody env p c s) 0 fault).2 = BodyResult.completed := by
      cases hp : pyIntParse (gsProxyPortStr env)
      case some port =>
        have hshape : gsTryBody env p c s =
            [Action.eff (.printOut "🚀 Starting session generation..."),
             Action.eff (.readEnv "PROXY_HOST"),
             Action.eff (.readEnv "PROXY_PORT"),
             Action.eff (.readEnv "PROXY_PROTOCOL"),
             Action.eff (.promptIn gsPhoneQuestion),
             Action.eff (.clientConstructGS 27321288 "5c3202e68b0b9d356e7fc7daaec65e90"
               (gsProxyProtocol env) (gsProxyHost env) port),
             Action.eff (.printOut "🔌 Connecting to Telegram..."),
             Action.eff .connect,
             Action.eff (.printOut "📤 Sending code request..."),
             Action.eff (.sendCode p),
             Action.eff (.promptIn gsCodeQuestion),
             Action.eff (.printOut "🔐 Signing in..."),
             Action.eff (.signIn p c),
             Action.eff .exportSession,
             Action.eff (.printOut "\n✅ Session string generated successfully!"),
             Action.eff (.printOut "\n📋 Your session string:"),
             Action.eff (.printOut s),
             Action.eff (.printOut "\n💡 Add this to your .env file as TELEGRAM_SESSION_STRING")]
            ++ [Action.eff Eff.disconnect] := by
          unfold gsTryBody
          simp [hp]
        rw [hshape]
        exact runActs_lastEff (by simp) _ 0 fault (by simp)
      case none =>
        constructor
        · intro hmem
          exfalso
          rcases mem_runActs hmem with h1 | h1
          · unfold gsTryBody at h1
            simp [hp] at h1
          · simp at h1
        · intro hcomp
          exfalso
          have hall := runActs_completed hcomp
          have hra : Action.raiseErr (pyIntErrorMsg (gsProxyPortStr env))
              ∈ gsTryBody env p c s := by
            unfold gsTryBody
            simp [hp]
          rcases hall _ hra with ⟨e, he⟩
          exact absurd he (by simp)
    unfold generate_session
    cases hres : (runActs (gsTryBody env p c s) 0 fault).2 <;>
      simp only [hres] at hkey ⊢
    case completed => simp [hkey]
    case returned => exact absurd (runActs_returned hres) (gs_no_ret env p c s)
    case interrupted => simp [hkey]
    case raisedErr m => simp [hkey]
    case diverged => simp [hkey]

/-- Witness for C3 (amended): a concrete terminating listener run that
constructed its client reaches the stop call. -/
theorem c3_witness :
    Eff.stopClient ∈ (test_telegram emptyEnv "f" "u" [] Fault.noFault).1 :=
  c3_disconnect_amended.1 emptyEnv "f" "u" [] Fault.noFault (by decide) (by decide)

/-! ### Claim C6: what the message handler fires on -/

/-- Claim C6 counterexample: the registered handler's filter is insensitive to
thread/topic ids — no two messages that share a chat id but differ in thread
id are ever treated differently — refuting the claim that thread/topic ids
are used to filter which incoming messages are of interest. -/
theorem c6_counterexample :
    ¬ ∃ (dialogs : List Chat) (m₁ m₂ : TgMessage),
        m₁.chatId = m₂.chatId ∧ m₁.threadId ≠ m₂.threadId ∧
        handlerFires dialogs m₁ ≠ handlerFires dialogs m₂ := by
  intro ⟨dialogs, m₁, m₂, hchat, _, hne⟩
  exact hne (by simp [handlerFires, chatFilter, hchat])

/-- Claim C6 (amended): the registered message callback fires only for
messages whose chat id was collected from a dialog whose username appears in
the hardcoded group table; thread/topic ids play no role in the filtering. -/
theorem c6_handler_amended :
    (∀ (dialogs : List Chat) (m : TgMessage),
       handlerFires dialogs m = true →
       ∃ c ∈ dialogs, matchesGmgn c = true ∧ c.id = m.chatId) ∧
    (∀ (dialogs : List Chat) (m : TgMessage) (t : Option Int),
       handlerFires dialogs { m with threadId := t } = handlerFires dialogs m) := by
  constructor
  · intro dialogs m h
    have hmem : m.chatId ∈ ttGroupIds dialogs := by
      simpa [handlerFires, chatFilter, List.contains, List.elem_iff] using h
    unfold ttGroupIds at hmem
    rcases List.mem_map.mp hmem with ⟨pair, hpair, hsnd⟩
    rcases ttGroupDict_mem hpair with ⟨c, hc, hm, hpc⟩
    refine ⟨c, hc, hm, ?_⟩
    rw [hpc] at hsnd
    exact hsnd
  · intro dialogs m t
    rfl

/-- Witness for C6 (amended): a concrete firing message traces back to the
matching dialog that supplied its chat id. -/
theorem c6_witness :
    ∃ c ∈ [(⟨"T", some "gmgnsignals", 5⟩ : Chat)], matchesGmgn c = true ∧ c.id = 5 :=
  c6_handler_amended.1 [⟨"T", some "gmgnsignals", 5⟩]
    ⟨5, Option.none, Option.none, "d", Option.none⟩ (by decide)

/-! ### Claim C7: flat procedure order -/

/-- Claim C7: each script body is a flat procedure in order — it reads the
configuration, constructs the client with it, performs its single workflow
(interactive login with the verbatim session-string print, or handler
registration followed by the indefinite sleep), in exactly this order, as
shown by the complete traces of fault-free runs. -/
theorem c7_step_order (env : EnvMap) (p c s mf mu : String) (dialogs : List Chat) (port : Int)
    (hp : pyIntParse (gsProxyPortStr env) = some port) :
    generate_session env p c s Fault.noFault =
      (gsFullTrace env p c s port, ExitStatus.normal) ∧
    (ttGroupIds dialogs ≠ [] →
      test_telegram env mf mu dialogs Fault.noFault =
        (ttSetupEffs env mf mu port ++ ttDialogPrints dialogs ++
          [Eff.registerHandler (ttGroupIds dialogs),
           Eff.printOut "\n👂 Listening for new messages in all GMGN signal groups... (Press Ctrl+C to stop)",
           Eff.sleepLoop],
         ExitStatus.diverges)) := by
  constructor
  · unfold generate_session
    rw [gs_trace_noFault env p c s port hp]
  · intro hg
    unfold test_telegram
    rw [tt_trace_noFault env mf mu dialogs port hp]
    simp [hg]

/-- Witness for C7 at the empty environment with one matching dialog. -/
theorem c7_witness :
    generate_session emptyEnv "p" "c" "s" Fault.noFault =
      (gsFullTrace emptyEnv "p" "c" "s" 10808, ExitStatus.normal) ∧
    test_telegram emptyEnv "f" "u" [⟨"T", some "gmgnsignals", 5⟩] Fault.noFault =
      (ttSetupEffs emptyEnv "f" "u" 10808 ++
        ttDialogPrints [⟨"T", some "gmgnsignals", 5⟩] ++
        [Eff.registerHandler (ttGroupIds [⟨"T", some "gmgnsignals", 5⟩]),
         Eff.printOut "\n👂 Listening for new messages in all GMGN signal groups... (Press Ctrl+C to stop)",
         Eff.sleepLoop],
       ExitStatus.diverges) :=
  ⟨(c7_step_order emptyEnv "p" "c" "s" "f" "u" [⟨"T", some "gmgnsignals", 5⟩] 10808
      (by decide)).1,
   (c7_step_order emptyEnv "p" "c" "s" "f" "u" [⟨"T", some "gmgnsignals", 5⟩] 10808
      (by decide)).2 (by decide)⟩

/-! ### Claim C8: output effects are plain prints -/

/-- Claim C8: the scripts' only output effects are human-readable prints to
standard output — no run of either script, and no execution of the message
handler, performs a file write or emits machine-readable output. -/
theorem c8_output_effects :
    (∀ (env : EnvMap) (p c s : String) (fault : Fault) (e : Eff),
       e ∈ (generate_session env p c s fault).1 → isForbiddenOutput e = false) ∧
    (∀ (env : EnvMap) (mf mu : String) (dialogs : List Chat) (fault : Fault) (e : Eff),
       e ∈ (test_telegram env mf mu dialogs fault).1 → isForbiddenOutput e = false) ∧
    (∀ (title : String) (m : TgMessage) (e : Eff),
       e ∈ handle_new_message title m → isForbiddenOutput e = false) := by
  refine ⟨?_, ?_, ?_⟩
  · intro env p c s fault e h
    rcases mem_generate_session h with h1 | h1 | ⟨m, h1⟩
    · exact gs_no_forbidden h1
    · rw [h1]
      rfl
    · rw [h1]
      rfl
  · intro env mf mu dialogs fault e h
    rcases mem_test_telegram h with h1 | h1 | h1 | ⟨m, h1⟩ | h1
    · exact tt_no_forbidden h1
    all_goals
      rw [h1]
      rfl
  · intro title m e h
    simp only [handle_new_message, List.mem_cons, List.not_mem_nil, or_false] at h
    rcases h with h | h | h | h | h <;> rw [h] <;> rfl

/-- Witness for C8 at a concrete effect of a concrete run. -/
theorem c8_witness :
    isForbiddenOutput (Eff.printOut "🚀 Starting session generation...") = false :=
  c8_output_effects.1 emptyEnv "p" "c" "s" Fault.noFault
    (Eff.printOut "🚀 Starting session generation...") (by decide)

/-! ### Claim C9: the no-matching-groups early return -/

/-- Claim C9: when no dialog's username matches the hardcoded group table, the
listener prints the not-found message and returns — it registers no handler
and never enters the sleep loop — the run exits normally, and the `finally`
block still executes the stop call. -/
theorem c9_no_groups (env : EnvMap) (mf mu : String) (dialogs : List Chat) (port : Int)
    (hp : pyIntParse (gsProxyPortStr env) = some port)
    (hg : ttGroupDict dialogs = []) :
    (test_telegram env mf mu dialogs Fault.noFault).2 = ExitStatus.normal ∧
    Eff.printOut ttNotFoundMsg ∈ (test_telegram env mf mu dialogs Fault.noFault).1 ∧
    (∀ ids, Eff.registerHandler ids ∉ (test_telegram env mf mu dialogs Fault.noFault).1) ∧
    Eff.sleepLoop ∉ (test_telegram env mf mu dialogs Fault.noFault).1 ∧
    Eff.stopClient ∈ (test_telegram env mf mu dialogs Fault.noFault).1 := by
  have hg' : ttGroupIds dialogs = [] := by
    unfold ttGroupIds
    rw [hg]
    rfl
  have hpd : ttDialogPrints dialogs = [] := ttDialogPrints_eq_nil (ttGroupDict_eq_nil hg)
  unfold test_telegram
  rw [tt_trace_noFault env mf mu dialogs port hp]
  simp [hg', hpd, ttSetupEffs, isClientConstruct]

/-- Witness for C9 at a concrete dialog list with no matching username. -/
theorem c9_witness :
    (test_telegram emptyEnv "f" "u" [⟨"T", some "nope", 5⟩] Fault.noFault).2 =
      ExitStatus.normal ∧
    Eff.stopClient ∈ (test_telegram emptyEnv "f" "u" [⟨"T", some "nope", 5⟩] Fault.noFault).1 := by
  have h := c9_no_groups emptyEnv "f" "u" [⟨"T", some "nope", 5⟩] 10808 (by decide) (by decide)
  exact ⟨h.1, h.2.2.2.2⟩

/-! ### Claim C10: a malformed PROXY_PORT value -/

/-- Claim C10: when PROXY_PORT is set to a string that does not parse as an
integer, the conversion fails before any client is constructed, and the
broad handler of each script prints the ValueError message and exits with
status 1. -/
theorem c10_bad_port (env : EnvMap) (v p c s mf mu : String) (dialogs : List Chat)
    (hv : env "PROXY_PORT" = some v) (hbad : pyIntParse v = Option.none) :
    ((generate_session env p c s Fault.noFault).2 = ExitStatus.exitCode 1 ∧
     Eff.printOut ("❌ Error generating session: " ++ pyIntErrorMsg v)
       ∈ (generate_session env p c s Fault.noFault).1 ∧
     (generate_session env p c s Fault.noFault).1.any isClientConstruct = false) ∧
    ((test_telegram env mf mu dialogs Fault.noFault).2 = ExitStatus.exitCode 1 ∧
     Eff.printOut ("❌ Error: " ++ pyIntErrorMsg v)
       ∈ (test_telegram env mf mu dialogs Fault.noFault).1 ∧
     (test_telegram env mf mu dialogs Fault.noFault).1.any isClientConstruct = false) := by
  have hps : gsProxyPortStr env = v := by simp [gsProxyPortStr, osGetenvD, hv]
  have hp : pyIntParse (gsProxyPortStr env) = Option.none := by
    rw [hps]
    exact hbad
  constructor
  · unfold generate_session
    rw [gs_trace_badPort env p c s hp]
    simp [hps, isClientConstruct]
  · unfold test_telegram
    rw [tt_trace_badPort env mf mu dialogs hp]
    simp [hps, isClientConstruct]

/-- Witness for C10 at PROXY_PORT set to the string abc. -/
theorem c10_witness :
    (generate_session (fun n => if n = "PROXY_PORT" then some "abc" else Option.none)
        "p" "c" "s" Fault.noFault).2 = ExitStatus.exitCode 1 :=
  (c10_bad_port (fun n => if n = "PROXY_PORT" then some "abc" else Option.none)
      "abc" "p" "c" "s" "f" "u" [] (by simp) (by decide)).1.1

end AlphaRadar
